import Mathlib

/-
  Verification of the aws-reservations reconciliation tool.

  The Go program (src/aws-reservations.go) fetches four AWS listings
  (running EC2 instances, running RDS instances, reserved EC2 instances,
  reserved RDS instances), normalizes each record into a (group key, count,
  lifecycle state) triple, accumulates net counts per group key and prints
  the keys with positive net count ("on-demand") and negative net count
  ("unused reservations").  This file embeds that logic shallowly and
  proves the stated properties about it.
-/

namespace AwsRes

/-- Go `type state uint8` with constants `UnknownState = 0` and `Active = 1`. -/
inductive state where
  | UnknownState : state
  | Active : state
deriving DecidableEq

/-- Go struct `ec2Inst`: the grouping key for EC2 instances
(instance class and VPC membership). -/
structure ec2Inst where
  Class : String
  VPC : Bool
deriving DecidableEq

/-- Go struct `rdsInst`: the grouping key for RDS instances
(instance class, database product, multi-AZ flag). -/
structure rdsInst where
  Class : String
  Product : String
  MultiAZ : Bool
deriving DecidableEq

/-- Go `ec2InstInfo` and `rdsInstInfo` are a count and a state together with an
embedded key struct; the anonymous Go struct embedding is modelled by the
`key` field, at key type `ec2Inst` resp. `rdsInst`. -/
structure instInfo (κ : Type) where
  key : κ
  Count : Int
  State : state
deriving DecidableEq

abbrev ec2InstInfo := instInfo ec2Inst
abbrev rdsInstInfo := instInfo rdsInst

/-- Go `toStr`: unpack an `aws.StringValue` (a string pointer, modelled as
`Option String`); nil corresponds to the empty string. -/
def toStr : Option String → String
  | none => ""
  | some s => s

/-- Go `toInt`: unpack an `aws.IntegerValue`; nil corresponds to 0. -/
def toInt : Option Int → Int
  | none => 0
  | some i => i

/-- Go `toBool`: unpack an `aws.BooleanValue`; nil corresponds to false. -/
def toBool : Option Bool → Bool
  | none => false
  | some b => b

/-- Go `strings.Contains s sub`: `sub` occurs as a contiguous substring of
`s` (character-level infix; the constant patterns used here are ASCII, for
which byte-level and character-level containment coincide). -/
def stringsContains (s sub : String) : Bool :=
  decide (sub.toList <:+: s.toList)

/-- Modelled from the spec: the `gen/ec2` SDK package is a dependency that is
not part of this repository, so its state-name string constants are taken
from spec section 4.1, which lists the active-equivalent compute states as
{running, pending, stopping, shutting-down, stopped}. -/
def InstanceStateNameRunning : String := "running"

/-- Modelled from the spec: SDK constant, see `InstanceStateNameRunning`. -/
def InstanceStateNamePending : String := "pending"

/-- Modelled from the spec: SDK constant, see `InstanceStateNameRunning`. -/
def InstanceStateNameStopping : String := "stopping"

/-- Modelled from the spec: SDK constant, see `InstanceStateNameRunning`. -/
def InstanceStateNameShuttingDown : String := "shutting-down"

/-- Modelled from the spec: SDK constant, see `InstanceStateNameRunning`. -/
def InstanceStateNameStopped : String := "stopped"

/-- Raw `ec2.InstanceState` (the `State` field of a running instance): the
state name is a nullable string. -/
structure ec2InstanceState where
  Name : Option String
deriving DecidableEq

/-- Raw `ec2.Instance` record, restricted to the fields the program reads;
pointer-valued SDK fields become `Option`. -/
structure ec2Instance where
  InstanceType : Option String
  VPCID : Option String
  State : Option ec2InstanceState
deriving DecidableEq

/-- Raw `ec2.ReservedInstances` record, restricted to the fields read. -/
structure ec2ReservedInstances where
  InstanceType : Option String
  InstanceCount : Option Int
  ProductDescription : Option String
  State : Option String
deriving DecidableEq

/-- Raw `rds.DBInstance` record, restricted to the fields read. -/
structure rdsDBInstance where
  DBInstanceClass : Option String
  Engine : Option String
  MultiAZ : Option Bool
deriving DecidableEq

/-- Raw `rds.ReservedDBInstance` record, restricted to the fields read. -/
structure rdsReservedDBInstance where
  DBInstanceClass : Option String
  ProductDescription : Option String
  MultiAZ : Option Bool
  DBInstanceCount : Option Int
  State : Option String
deriving DecidableEq

/-- Go `rdsiTordsii`: converts `rds.DBInstance` to `rdsInstInfo`; count always
set to 1 and state set to Active. -/
def rdsiTordsii (r : rdsDBInstance) : rdsInstInfo :=
  { key := { Class := toStr r.DBInstanceClass
             Product := toStr r.Engine
             MultiAZ := toBool r.MultiAZ }
    Count := 1
    State := state.Active }

/-- Go `rdsriTordsii`: converts `rds.ReservedDBInstance` to `rdsInstInfo`;
the zero value of the Go `state` field is `UnknownState`, and the switch on
the unpacked state string sets it to `Active` exactly for "active". -/
def rdsriTordsii (r : rdsReservedDBInstance) : rdsInstInfo :=
  { key := { Class := toStr r.DBInstanceClass
             Product := toStr r.ProductDescription
             MultiAZ := toBool r.MultiAZ }
    Count := toInt r.DBInstanceCount
    State := if toStr r.State = "active" then state.Active else state.UnknownState }

/-- Go `ec2iToec2ii`: converts `ec2.Instance` to `ec2InstInfo`. Count is
always 1; the state starts as `UnknownState` and, when the `State` pointer is
non-nil, the switch on the state name sets `Active` for running, stopped,
stopping, shutting-down and pending. -/
def ec2iToec2ii (r : ec2Instance) : ec2InstInfo :=
  { key := { Class := toStr r.InstanceType
             VPC := decide (0 < (toStr r.VPCID).length) }
    Count := 1
    State :=
      match r.State with
      | none => state.UnknownState
      | some st =>
          if toStr st.Name = InstanceStateNameRunning ∨
             toStr st.Name = InstanceStateNameStopped ∨
             toStr st.Name = InstanceStateNameStopping ∨
             toStr st.Name = InstanceStateNameShuttingDown ∨
             toStr st.Name = InstanceStateNamePending
          then state.Active
          else state.UnknownState }

/-- Go `ec2riToec2ii`: converts `ec2.ReservedInstances` to `ec2InstInfo`;
VPC membership is a substring match for "Amazon VPC" on the product
description, and the switch on the state string sets `Active` for "active". -/
def ec2riToec2ii (r : ec2ReservedInstances) : ec2InstInfo :=
  { key := { Class := toStr r.InstanceType
             VPC := stringsContains (toStr r.ProductDescription) "Amazon VPC" }
    Count := toInt r.InstanceCount
    State := if toStr r.State = "active" then state.Active else state.UnknownState }

/-- A Go map from group keys to int, observed through lookup: `none` means
the key is absent, `some v` that the key is present with value `v`. -/
abbrev gmap (κ : Type) := κ → Option Int

/-- The empty map `make(map[K]int)`. -/
def emptyMap (κ : Type) : gmap κ :=
  fun _ => none

/-- Go `m[k] += c`: indexing a missing key reads the zero value 0; the store
creates the key if absent. -/
def mapAdd {κ : Type} [DecidableEq κ] (m : gmap κ) (k : κ) (c : Int) : gmap κ :=
  fun q => if q = k then some ((m k).getD 0 + c) else m q

/-- Go `m[k] -= c`. -/
def mapSub {κ : Type} [DecidableEq κ] (m : gmap κ) (k : κ) (c : Int) : gmap κ :=
  fun q => if q = k then some ((m k).getD 0 - c) else m q

/-- One iteration of the running-records loops in `main` (lines 44-49 and
54-59): a record whose state is not Active is skipped (`continue`), else
`m[ii.key] += ii.Count`. -/
def runStep {κ : Type} [DecidableEq κ] (m : gmap κ) (ii : instInfo κ) : gmap κ :=
  if ii.State = state.Active then mapAdd m ii.key ii.Count else m

/-- One iteration of the reserved-records loops in `main` (lines 65-70 and
75-80): skip non-Active records, else `m[ii.key] -= ii.Count`. -/
def resStep {κ : Type} [DecidableEq κ] (m : gmap κ) (ii : instInfo κ) : gmap κ :=
  if ii.State = state.Active then mapSub m ii.key ii.Count else m

/-- The running-records accumulation loop of `main` over a whole listing. -/
def fillRunning {κ : Type} [DecidableEq κ] (m : gmap κ) (l : List (instInfo κ)) : gmap κ :=
  l.foldl runStep m

/-- The reserved-records accumulation loop of `main` over a whole listing. -/
def fillReserved {κ : Type} [DecidableEq κ] (m : gmap κ) (l : List (instInfo κ)) : gmap κ :=
  l.foldl resStep m

/-- Spec section 4.2 `reconcile`: the net-count mapping `main` builds for one
resource kind — all running contributions, then all reserved contributions,
starting from an empty map. -/
def reconcile {κ : Type} [DecidableEq κ] (running reserved : List (instInfo κ)) : gmap κ :=
  fillReserved (fillRunning (emptyMap κ) running) reserved

/-- The on-demand bucket (main lines 84-93 and 109-118): the print loop skips
keys whose net value v satisfies `v < 1` and reports the rest with value v. -/
def onDemand {κ : Type} (m : gmap κ) : gmap κ :=
  fun k =>
    match m k with
    | none => none
    | some v => if v < 1 then none else some v

/-- The unused-reservations bucket (main lines 96-105 and 121-130): the print
loop skips keys whose net value v satisfies `v >= 0` and reports the rest
with value `-v`. -/
def unusedReservations {κ : Type} (m : gmap κ) : gmap κ :=
  fun k =>
    match m k with
    | none => none
    | some v => if 0 ≤ v then none else some (-v)

/-- Raw `ec2.Reservation` (a DescribeInstances response groups instances into
reservations), restricted to the `Instances` field the program reads. -/
structure ec2Reservation where
  Instances : List ec2Instance

/-- Raw `ec2.DescribeInstancesResult`, restricted to the field read. -/
structure DescribeInstancesResult where
  Reservations : List ec2Reservation

/-- Raw `ec2.DescribeReservedInstancesResult`, restricted to the field read. -/
structure DescribeReservedInstancesResult where
  ReservedInstances : List ec2ReservedInstances

/-- Raw `rds.DescribeDBInstancesResult`, restricted to the field read. -/
structure DescribeDBInstancesResult where
  DBInstances : List rdsDBInstance

/-- Raw `rds.DescribeReservedDBInstancesResult`, restricted to the field
read. -/
structure DescribeReservedDBInstancesResult where
  ReservedDBInstances : List rdsReservedDBInstance

/-- Go `getRunningEC2Instances`: the DescribeInstances API call either fails
(the error is returned unchanged) or yields a response whose instances, over
all reservations in order, are each normalized with `ec2iToec2ii`. -/
def getRunningEC2Instances (E : Type) (resp : Except E DescribeInstancesResult) :
    Except E (List ec2InstInfo) :=
  match resp with
  | .error e => .error e
  | .ok r => .ok (((r.Reservations.map ec2Reservation.Instances).flatten).map ec2iToec2ii)

/-- Go `getRunningRDSInstances`: fails like the API call, else normalizes
every DB instance with `rdsiTordsii`. -/
def getRunningRDSInstances (E : Type) (resp : Except E DescribeDBInstancesResult) :
    Except E (List rdsInstInfo) :=
  match resp with
  | .error e => .error e
  | .ok r => .ok (r.DBInstances.map rdsiTordsii)

/-- Go `getReservedRDSInstances`: fails like the API call, else normalizes
every reserved DB instance with `rdsriTordsii`. -/
def getReservedRDSInstances (E : Type) (resp : Except E DescribeReservedDBInstancesResult) :
    Except E (List rdsInstInfo) :=
  match resp with
  | .error e => .error e
  | .ok r => .ok (r.ReservedDBInstances.map rdsriTordsii)

/-- Go `getReservedEC2Instances`: fails like the API call, else normalizes
every reserved instance with `ec2riToec2ii`. -/
def getReservedEC2Instances (E : Type) (resp : Except E DescribeReservedInstancesResult) :
    Except E (List ec2InstInfo) :=
  match resp with
  | .error e => .error e
  | .ok r => .ok (r.ReservedInstances.map ec2riToec2ii)

/-- The observable output of one pass: the four classified buckets `main`
prints (on-demand EC2, unused EC2 reservations, on-demand RDS, unused RDS
reservations). -/
structure reportT where
  onDemandEC2 : gmap ec2Inst
  unusedEC2 : gmap ec2Inst
  onDemandRDS : gmap rdsInst
  unusedRDS : gmap rdsInst

/-- Go `main`, lines 35-130, with the four AWS responses supplied as `Except`
values.  Each fetch is checked in program order (running EC2, running RDS,
reserved EC2, reserved RDS) and a fetch error is fatal (`log.Fatal`) before
any classification; on success the report carries the four classified
buckets of the two net-count maps. -/
def mainRun (E : Type) (respRunningEC2 : Except E DescribeInstancesResult)
    (respRunningRDS : Except E DescribeDBInstancesResult)
    (respReservedEC2 : Except E DescribeReservedInstancesResult)
    (respReservedRDS : Except E DescribeReservedDBInstancesResult) :
    Except E reportT := do
  let runningEi ← getRunningEC2Instances E respRunningEC2
  let ei0 := fillRunning (emptyMap ec2Inst) runningEi
  let runningRi ← getRunningRDSInstances E respRunningRDS
  let ri0 := fillRunning (emptyMap rdsInst) runningRi
  let reservedEi ← getReservedEC2Instances E respReservedEC2
  let ei := fillReserved ei0 reservedEi
  let reservedRi ← getReservedRDSInstances E respReservedRDS
  let ri := fillReserved ri0 reservedRi
  pure { onDemandEC2 := onDemand ei
         unusedEC2 := unusedReservations ei
         onDemandRDS := onDemand ri
         unusedRDS := unusedReservations ri }

/-- Sum of the counts of the Active records with key `k` in a listing; the
right-hand side of the spec section 3 NetCount invariant. -/
def activeSum {κ : Type} [DecidableEq κ] (k : κ) : List (instInfo κ) → Int
  | [] => 0
  | ii :: rest =>
      (if ii.State = state.Active ∧ ii.key = k then ii.Count else 0) + activeSum k rest

/-! Helper lemmas about single map updates and the accumulation loops. -/

theorem mapAdd_getD {κ : Type} [DecidableEq κ] (m : gmap κ) (k : κ) (c : Int) (q : κ) :
    ((mapAdd m k c) q).getD 0 = (m q).getD 0 + (if q = k then c else 0) := by
  by_cases h : q = k
  · subst h; simp [mapAdd]
  · simp [mapAdd, h]

theorem mapSub_getD {κ : Type} [DecidableEq κ] (m : gmap κ) (k : κ) (c : Int) (q : κ) :
    ((mapSub m k c) q).getD 0 = (m q).getD 0 - (if q = k then c else 0) := by
  by_cases h : q = k
  · subst h; simp [mapSub]
  · simp [mapSub, h]

theorem runStep_getD {κ : Type} [DecidableEq κ] (m : gmap κ) (ii : instInfo κ) (k : κ) :
    ((runStep m ii) k).getD 0 =
      (m k).getD 0 + (if ii.State = state.Active ∧ ii.key = k then ii.Count else 0) := by
  unfold runStep
  by_cases hs : ii.State = state.Active
  · rw [if_pos hs, mapAdd_getD]
    by_cases hk : ii.key = k
    · simp [hk, hs]
    · have hk' : ¬ (k = ii.key) := fun h => hk h.symm
      simp [hk, hk', hs]
  · simp [hs]

theorem resStep_getD {κ : Type} [DecidableEq κ] (m : gmap κ) (ii : instInfo κ) (k : κ) :
    ((resStep m ii) k).getD 0 =
      (m k).getD 0 - (if ii.State = state.Active ∧ ii.key = k then ii.Count else 0) := by
  unfold resStep
  by_cases hs : ii.State = state.Active
  · rw [if_pos hs, mapSub_getD]
    by_cases hk : ii.key = k
    · simp [hk, hs]
    · have hk' : ¬ (k = ii.key) := fun h => hk h.symm
      simp [hk, hk', hs]
  · simp [hs]

theorem fillRunning_getD {κ : Type} [DecidableEq κ] (l : List (instInfo κ)) (m : gmap κ)
    (k : κ) : ((fillRunning m l) k).getD 0 = (m k).getD 0 + activeSum k l := by
  induction l generalizing m with
  | nil => simp [fillRunning, activeSum]
  | cons ii rest ih =>
      show ((fillRunning (runStep m ii) rest) k).getD 0 = _
      rw [ih, runStep_getD, activeSum]
      ring

theorem fillReserved_getD {κ : Type} [DecidableEq κ] (l : List (instInfo κ)) (m : gmap κ)
    (k : κ) : ((fillReserved m l) k).getD 0 = (m k).getD 0 - activeSum k l := by
  induction l generalizing m with
  | nil => simp [fillReserved, activeSum]
  | cons ii rest ih =>
      show ((fillReserved (resStep m ii) rest) k).getD 0 = _
      rw [ih, resStep_getD, activeSum]
      ring

/-- C1: for every key k, the value of the net-count mapping produced by the
reconciliation pass equals the sum of the counts of Active running records
with key k minus the sum of the counts of Active reserved records with key k
(a key absent from the mapping reads as the zero value 0, as in Go), both
for the compute (`ec2Inst`) mapping and for the database (`rdsInst`)
mapping; and the equation is preserved by every accumulation step: a `+=`
step moves the value at k by the record's count exactly when the record is
Active with key k, and a `-=` step moves it by minus that amount. -/
theorem netcount_invariant :
    (∀ (running reserved : List ec2InstInfo) (k : ec2Inst),
        ((reconcile running reserved) k).getD 0 = activeSum k running - activeSum k reserved) ∧
    (∀ (running reserved : List rdsInstInfo) (k : rdsInst),
        ((reconcile running reserved) k).getD 0 = activeSum k running - activeSum k reserved) ∧
    (∀ (m : gmap ec2Inst) (ii : ec2InstInfo) (k : ec2Inst),
        ((runStep m ii) k).getD 0 =
          (m k).getD 0 + (if ii.State = state.Active ∧ ii.key = k then ii.Count else 0)) ∧
    (∀ (m : gmap ec2Inst) (ii : ec2InstInfo) (k : ec2Inst),
        ((resStep m ii) k).getD 0 =
          (m k).getD 0 - (if ii.State = state.Active ∧ ii.key = k then ii.Count else 0)) ∧
    (∀ (m : gmap rdsInst) (ii : rdsInstInfo) (k : rdsInst),
        ((runStep m ii) k).getD 0 =
          (m k).getD 0 + (if ii.State = state.Active ∧ ii.key = k then ii.Count else 0)) ∧
    (∀ (m : gmap rdsInst) (ii : rdsInstInfo) (k : rdsInst),
        ((resStep m ii) k).getD 0 =
          (m k).getD 0 - (if ii.State = state.Active ∧ ii.key = k then ii.Count else 0)) := by
  refine ⟨?_, ?_, runStep_getD, resStep_getD, runStep_getD, resStep_getD⟩ <;>
    · intro running reserved k
      show ((fillReserved (fillRunning (emptyMap _) running) reserved) k).getD 0 = _
      rw [fillReserved_getD, fillRunning_getD]
      simp [emptyMap]

/-! Classifier lemmas. -/

theorem classify_spec {κ : Type} (m : gmap κ) (k : κ) (net : Int) (hm : m k = some net) :
    (0 < net → onDemand m k = some net ∧ unusedReservations m k = none) ∧
    (net < 0 → unusedReservations m k = some (-net) ∧ onDemand m k = none) ∧
    (net = 0 → onDemand m k = none ∧ unusedReservations m k = none) := by
  have hod : onDemand m k = if net < 1 then none else some net := by
    unfold onDemand; rw [hm]
  have hur : unusedReservations m k = if 0 ≤ net then none else some (-net) := by
    unfold unusedReservations; rw [hm]
  refine ⟨fun hpos => ?_, fun hneg => ?_, fun hz => ?_⟩
  · rw [hod, hur, if_neg (show ¬ net < 1 by omega),
      if_pos (show (0 : Int) ≤ net by omega)]
    exact ⟨rfl, rfl⟩
  · rw [hod, hur, if_neg (show ¬ (0 : Int) ≤ net by omega),
      if_pos (show net < 1 by omega)]
    exact ⟨rfl, rfl⟩
  · rw [hod, hur, if_pos (show net < 1 by omega),
      if_pos (show (0 : Int) ≤ net by omega)]
    exact ⟨rfl, rfl⟩

theorem bucket_values_positive {κ : Type} (m : gmap κ) (k : κ) (v : Int) :
    (onDemand m k = some v → 0 < v) ∧ (unusedReservations m k = some v → 0 < v) := by
  constructor <;> intro h
  · unfold onDemand at h
    split at h
    · exact absurd h (by simp)
    · split at h
      · exact absurd h (by simp)
      · have hv := Option.some.inj h
        omega
  · unfold unusedReservations at h
    split at h
    · exact absurd h (by simp)
    · split at h
      · exact absurd h (by simp)
      · have hv := Option.some.inj h
        omega

/-- C2: for any key k whose net value is net: if net is positive, k is in the
on-demand bucket with value net and not in the unused-reservations bucket;
if net is negative, k is in the unused-reservations bucket with the positive
magnitude -net and not in the on-demand bucket; if net is zero, k is in
neither bucket.  The same rule holds for the compute and for the database
mapping, and every value a bucket exposes is strictly positive. -/
theorem classification_rule :
    (∀ (m : gmap ec2Inst) (k : ec2Inst) (net : Int), m k = some net →
        (0 < net → onDemand m k = some net ∧ unusedReservations m k = none) ∧
        (net < 0 → unusedReservations m k = some (-net) ∧ onDemand m k = none) ∧
        (net = 0 → onDemand m k = none ∧ unusedReservations m k = none)) ∧
    (∀ (m : gmap rdsInst) (k : rdsInst) (net : Int), m k = some net →
        (0 < net → onDemand m k = some net ∧ unusedReservations m k = none) ∧
        (net < 0 → unusedReservations m k = some (-net) ∧ onDemand m k = none) ∧
        (net = 0 → onDemand m k = none ∧ unusedReservations m k = none)) ∧
    (∀ (m : gmap ec2Inst) (k : ec2Inst) (v : Int),
        (onDemand m k = some v → 0 < v) ∧ (unusedReservations m k = some v → 0 < v)) ∧
    (∀ (m : gmap rdsInst) (k : rdsInst) (v : Int),
        (onDemand m k = some v → 0 < v) ∧ (unusedReservations m k = some v → 0 < v)) :=
  ⟨fun m k net hm => classify_spec m k net hm,
   fun m k net hm => classify_spec m k net hm,
   fun m k v => bucket_values_positive m k v,
   fun m k v => bucket_values_positive m k v⟩

/-- Witness for `classification_rule`: a map holding net value 2 at one
compute key puts that key in the on-demand bucket with value 2. -/
theorem classification_rule_witness :
    onDemand (mapAdd (emptyMap ec2Inst) { Class := "m3.large", VPC := false } 2)
        { Class := "m3.large", VPC := false } = some 2 :=
  ((classification_rule.1 (mapAdd (emptyMap ec2Inst) { Class := "m3.large", VPC := false } 2)
      { Class := "m3.large", VPC := false } 2 (by decide)).1 (by decide)).1

/-- C4: from one net-count mapping, every key lands in at most one of the two
classified buckets: at every key at least one of the on-demand and the
unused-reservations bucket is empty, for the compute and for the database
mapping alike. -/
theorem buckets_mutually_exclusive :
    (∀ (m : gmap ec2Inst) (k : ec2Inst),
        onDemand m k = none ∨ unusedReservations m k = none) ∧
    (∀ (m : gmap rdsInst) (k : rdsInst),
        onDemand m k = none ∨ unusedReservations m k = none) := by
  constructor <;>
    · intro m k
      unfold onDemand unusedReservations
      cases hm : m k with
      | none => exact Or.inl rfl
      | some v =>
          by_cases hv : v < 1
          · exact Or.inl (if_pos hv)
          · exact Or.inr (if_pos (by omega))

/-! Permutation invariance of the accumulation loops. -/

theorem mapAdd_self {κ : Type} [DecidableEq κ] (m : gmap κ) (k : κ) (c : Int) :
    mapAdd m k c k = some ((m k).getD 0 + c) :=
  if_pos rfl

theorem mapAdd_other {κ : Type} [DecidableEq κ] (m : gmap κ) (k : κ) (c : Int)
    {q : κ} (h : q ≠ k) : mapAdd m k c q = m q :=
  if_neg h

theorem mapSub_self {κ : Type} [DecidableEq κ] (m : gmap κ) (k : κ) (c : Int) :
    mapSub m k c k = some ((m k).getD 0 - c) :=
  if_pos rfl

theorem mapSub_other {κ : Type} [DecidableEq κ] (m : gmap κ) (k : κ) (c : Int)
    {q : κ} (h : q ≠ k) : mapSub m k c q = m q :=
  if_neg h

theorem mapAdd_comm {κ : Type} [DecidableEq κ] (m : gmap κ) (k1 k2 : κ) (c1 c2 : Int) :
    mapAdd (mapAdd m k1 c1) k2 c2 = mapAdd (mapAdd m k2 c2) k1 c1 := by
  funext q
  by_cases h1 : q = k1
  · by_cases h2 : q = k2
    · subst h1; subst h2
      simp only [mapAdd_self, Option.getD_some, Option.some.injEq]
      ring
    · subst h1
      simp only [mapAdd_other _ _ _ h2, mapAdd_self]
  · by_cases h2 : q = k2
    · subst h2
      simp only [mapAdd_other _ _ _ h1, mapAdd_self]
    · simp only [mapAdd_other _ _ _ h1, mapAdd_other _ _ _ h2]

theorem mapSub_comm {κ : Type} [DecidableEq κ] (m : gmap κ) (k1 k2 : κ) (c1 c2 : Int) :
    mapSub (mapSub m k1 c1) k2 c2 = mapSub (mapSub m k2 c2) k1 c1 := by
  funext q
  by_cases h1 : q = k1
  · by_cases h2 : q = k2
    · subst h1; subst h2
      simp only [mapSub_self, Option.getD_some, Option.some.injEq]
      ring
    · subst h1
      simp only [mapSub_other _ _ _ h2, mapSub_self]
  · by_cases h2 : q = k2
    · subst h2
      simp only [mapSub_other _ _ _ h1, mapSub_self]
    · simp only [mapSub_other _ _ _ h1, mapSub_other _ _ _ h2]

theorem runStep_comm {κ : Type} [DecidableEq κ] (m : gmap κ) (a b : instInfo κ) :
    runStep (runStep m a) b = runStep (runStep m b) a := by
  unfold runStep
  by_cases ha : a.State = state.Active <;> by_cases hb : b.State = state.Active <;>
    simp [ha, hb, mapAdd_comm]

theorem resStep_comm {κ : Type} [DecidableEq κ] (m : gmap κ) (a b : instInfo κ) :
    resStep (resStep m a) b = resStep (resStep m b) a := by
  unfold resStep
  by_cases ha : a.State = state.Active <;> by_cases hb : b.State = state.Active <;>
    simp [ha, hb, mapSub_comm]

theorem fillRunning_perm {κ : Type} [DecidableEq κ] (m : gmap κ)
    {l l' : List (instInfo κ)} (p : l.Perm l') : fillRunning m l = fillRunning m l' :=
  p.foldl_eq' (fun x _ y _ z => runStep_comm z x y) m

theorem fillReserved_perm {κ : Type} [DecidableEq κ] (m : gmap κ)
    {l l' : List (instInfo κ)} (p : l.Perm l') : fillReserved m l = fillReserved m l' :=
  p.foldl_eq' (fun x _ y _ z => resStep_comm z x y) m

/-- C5: the net-count mapping produced by reconciliation does not depend on
the order of the input records: permuting the running listing and permuting
the reserved listing yields the same mapping, for the compute and for the
database kind. -/
theorem reconcile_perm_invariant :
    (∀ (R R' S S' : List ec2InstInfo), R.Perm R' → S.Perm S' →
        reconcile R S = reconcile R' S') ∧
    (∀ (R R' S S' : List rdsInstInfo), R.Perm R' → S.Perm S' →
        reconcile R S = reconcile R' S') := by
  constructor <;>
    · intro R R' S S' hR hS
      unfold reconcile
      rw [fillRunning_perm (emptyMap _) hR, fillReserved_perm _ hS]

/-- Witness for `reconcile_perm_invariant`: swapping two running compute
records and rotating three reserved compute records leaves the net-count
mapping unchanged. -/
theorem reconcile_perm_invariant_witness :
    reconcile
        [({ key := { Class := "m3.large", VPC := false }, Count := 1, State := state.Active } :
            ec2InstInfo),
         { key := { Class := "t2.micro", VPC := true }, Count := 1, State := state.Active }]
        [({ key := { Class := "m3.large", VPC := false }, Count := 2, State := state.Active } :
            ec2InstInfo)] =
      reconcile
        [({ key := { Class := "t2.micro", VPC := true }, Count := 1, State := state.Active } :
            ec2InstInfo),
         { key := { Class := "m3.large", VPC := false }, Count := 1, State := state.Active }]
        [({ key := { Class := "m3.large", VPC := false }, Count := 2, State := state.Active } :
            ec2InstInfo)] :=
  reconcile_perm_invariant.1 _ _ _ _ (List.Perm.swap _ _ _) (List.Perm.refl _)

/-! Normalizer properties. -/

theorem ec2i_state_eq (r : ec2Instance) :
    (ec2iToec2ii r).State =
      match r.State with
      | none => state.UnknownState
      | some st =>
          if toStr st.Name = InstanceStateNameRunning ∨
             toStr st.Name = InstanceStateNameStopped ∨
             toStr st.Name = InstanceStateNameStopping ∨
             toStr st.Name = InstanceStateNameShuttingDown ∨
             toStr st.Name = InstanceStateNamePending
          then state.Active
          else state.UnknownState := rfl

/-- C6: reserved-compute normalization: the count is the unpacked
instance-count field (0 when the field is absent), the state is Active
exactly when the unpacked state string is "active", and the VPC flag of the
group key holds exactly when "Amazon VPC" occurs as a substring of the
unpacked product description. -/
theorem ec2ri_normalization :
    ∀ (r : ec2ReservedInstances),
      (ec2riToec2ii r).Count = toInt r.InstanceCount ∧
      (r.InstanceCount = none → (ec2riToec2ii r).Count = 0) ∧
      ((ec2riToec2ii r).State = state.Active ↔ toStr r.State = "active") ∧
      ((ec2riToec2ii r).key.VPC = true ↔
        "Amazon VPC".toList <:+: (toStr r.ProductDescription).toList) := by
  intro r
  refine ⟨rfl, fun h => ?_, ?_, ?_⟩
  · show toInt r.InstanceCount = 0
    rw [h]
    rfl
  · show (if toStr r.State = "active" then state.Active else state.UnknownState) =
        state.Active ↔ _
    by_cases h : toStr r.State = "active" <;> simp [h]
  · show stringsContains (toStr r.ProductDescription) "Amazon VPC" = true ↔ _
    exact decide_eq_true_iff

/-- Witness for `ec2ri_normalization`: a reservation with an absent
instance-count field normalizes to count 0. -/
theorem ec2ri_normalization_witness :
    (ec2riToec2ii
        { InstanceType := some "m3.large", InstanceCount := none,
          ProductDescription := some "Linux/UNIX (Amazon VPC)",
          State := some "active" }).Count = 0 :=
  (ec2ri_normalization _).2.1 rfl

/-- C7: running-compute normalization: the count is always 1, and the state
is Active exactly when the record carries a state whose name is one of
running, pending, stopping, shutting-down, stopped; an absent state field,
or any state name outside that set, normalizes to UnknownState. -/
theorem ec2i_normalization :
    ∀ (r : ec2Instance),
      (ec2iToec2ii r).Count = 1 ∧
      ((ec2iToec2ii r).State = state.Active ↔
        (∃ st, r.State = some st ∧
          (toStr st.Name = InstanceStateNameRunning ∨
           toStr st.Name = InstanceStateNamePending ∨
           toStr st.Name = InstanceStateNameStopping ∨
           toStr st.Name = InstanceStateNameShuttingDown ∨
           toStr st.Name = InstanceStateNameStopped))) ∧
      (r.State = none → (ec2iToec2ii r).State = state.UnknownState) ∧
      (∀ st, r.State = some st →
        ¬(toStr st.Name = InstanceStateNameRunning ∨
          toStr st.Name = InstanceStateNamePending ∨
          toStr st.Name = InstanceStateNameStopping ∨
          toStr st.Name = InstanceStateNameShuttingDown ∨
          toStr st.Name = InstanceStateNameStopped) →
        (ec2iToec2ii r).State = state.UnknownState) := by
  intro r
  refine ⟨rfl, ?_, fun h => by rw [ec2i_state_eq, h], fun st hs hnot => ?_⟩
  · rw [ec2i_state_eq]
    cases hs : r.State with
    | none => simp
    | some st =>
        simp only
        by_cases hc : toStr st.Name = InstanceStateNameRunning ∨
            toStr st.Name = InstanceStateNameStopped ∨
            toStr st.Name = InstanceStateNameStopping ∨
            toStr st.Name = InstanceStateNameShuttingDown ∨
            toStr st.Name = InstanceStateNamePending
        · rw [if_pos hc]
          refine iff_of_true rfl ⟨st, rfl, by tauto⟩
        · rw [if_neg hc]
          refine iff_of_false (by simp) ?_
          rintro ⟨st', hst, hd⟩
          cases Option.some.inj hst
          exact hc (by tauto)
  · rw [ec2i_state_eq, hs]
    exact if_neg (fun hc => hnot (by tauto))

/-- Witness for `ec2i_normalization`: a record with an absent state field
normalizes to UnknownState. -/
theorem ec2i_normalization_witness :
    (ec2iToec2ii
        { InstanceType := some "m3.large", VPCID := none, State := none }).State =
      state.UnknownState :=
  (ec2i_normalization _).2.2.1 rfl

/-! Frame properties of the accumulation loops. -/

/-- C8: a record whose state is not Active leaves the net-count mapping
untouched: the accumulation step is the identity, so it neither changes a
value nor creates a key, for the compute and for the database loops; in
particular a running compute record in state "terminated" normalizes to
UnknownState, reconciling it alone yields the empty mapping, and every key
is absent from both classified buckets. -/
theorem inactive_records_skipped :
    (∀ (m : gmap ec2Inst) (ii : ec2InstInfo), ii.State ≠ state.Active →
        runStep m ii = m ∧ resStep m ii = m) ∧
    (∀ (m : gmap rdsInst) (ii : rdsInstInfo), ii.State ≠ state.Active →
        runStep m ii = m ∧ resStep m ii = m) ∧
    (∀ (r : ec2Instance) (st : ec2InstanceState), r.State = some st →
        toStr st.Name = "terminated" →
        (ec2iToec2ii r).State = state.UnknownState ∧
        reconcile [ec2iToec2ii r] [] = emptyMap ec2Inst ∧
        (∀ k, onDemand (reconcile [ec2iToec2ii r] []) k = none ∧
              unusedReservations (reconcile [ec2iToec2ii r] []) k = none)) := by
  refine ⟨?_, ?_, ?_⟩
  · intro m ii h
    constructor
    · unfold runStep; rw [if_neg h]
    · unfold resStep; rw [if_neg h]
  · intro m ii h
    constructor
    · unfold runStep; rw [if_neg h]
    · unfold resStep; rw [if_neg h]
  · intro r st hs hterm
    have hstate : (ec2iToec2ii r).State = state.UnknownState := by
      rw [ec2i_state_eq, hs]
      exact if_neg (by rw [hterm]; decide)
    have hne : ¬ (ec2iToec2ii r).State = state.Active := by
      rw [hstate]; decide
    have hrec : reconcile [ec2iToec2ii r] [] = emptyMap ec2Inst := by
      unfold reconcile fillReserved fillRunning
      simp only [List.foldl_cons, List.foldl_nil]
      unfold runStep
      rw [if_neg hne]
    exact ⟨hstate, hrec, fun k => by rw [hrec]; exact ⟨rfl, rfl⟩⟩

/-- Witness for `inactive_records_skipped`: a non-Active compute record, even
with count 5, leaves the empty mapping empty. -/
theorem inactive_records_skipped_witness :
    runStep (emptyMap ec2Inst)
        ({ key := { Class := "m3.large", VPC := false }, Count := 5,
           State := state.UnknownState } : ec2InstInfo) = emptyMap ec2Inst :=
  (inactive_records_skipped.1 (emptyMap ec2Inst) _ (by decide)).1

/-- C10: an Active reserved compute record whose instance-count field is
absent normalizes to count 0 and state Active; subtracting it does insert
its group key into the mapping with value 0 (when the key was absent), yet
both classified buckets of the resulting mapping coincide with those of the
original mapping, so the report is unaffected. -/
theorem zero_count_active_reservation :
    ∀ (r : ec2ReservedInstances) (m : gmap ec2Inst),
      r.InstanceCount = none → toStr r.State = "active" →
      m (ec2riToec2ii r).key = none →
      (ec2riToec2ii r).Count = 0 ∧
      (ec2riToec2ii r).State = state.Active ∧
      fillReserved m [ec2riToec2ii r] (ec2riToec2ii r).key = some 0 ∧
      onDemand (fillReserved m [ec2riToec2ii r]) = onDemand m ∧
      unusedReservations (fillReserved m [ec2riToec2ii r]) =
        unusedReservations m := by
  intro r m hic hst hkey
  have hcount : (ec2riToec2ii r).Count = 0 := by
    show toInt r.InstanceCount = 0
    rw [hic]
    rfl
  have hactive : (ec2riToec2ii r).State = state.Active := by
    show (if toStr r.State = "active" then state.Active else state.UnknownState) =
      state.Active
    rw [if_pos hst]
  have hfill : fillReserved m [ec2riToec2ii r] = mapSub m (ec2riToec2ii r).key 0 := by
    unfold fillReserved
    simp only [List.foldl_cons, List.foldl_nil]
    unfold resStep
    rw [if_pos hactive, hcount]
  have hat : fillReserved m [ec2riToec2ii r] (ec2riToec2ii r).key = some 0 := by
    rw [hfill, mapSub_self, hkey]
    rfl
  refine ⟨hcount, hactive, hat, ?_, ?_⟩
  · funext k
    unfold onDemand
    by_cases hk : k = (ec2riToec2ii r).key
    · subst hk
      rw [hat, hkey]
      rfl
    · rw [hfill, mapSub_other _ _ _ hk]
  · funext k
    unfold unusedReservations
    by_cases hk : k = (ec2riToec2ii r).key
    · subst hk
      rw [hat, hkey]
      rfl
    · rw [hfill, mapSub_other _ _ _ hk]

/-- Witness for `zero_count_active_reservation`: an "active" reservation with
absent instance count inserts its key with value 0 into the empty mapping. -/
theorem zero_count_active_reservation_witness :
    fillReserved (emptyMap ec2Inst)
        [ec2riToec2ii
          { InstanceType := some "m3.large", InstanceCount := none,
            ProductDescription := some "Linux/UNIX", State := some "active" }]
        (ec2riToec2ii
          { InstanceType := some "m3.large", InstanceCount := none,
            ProductDescription := some "Linux/UNIX", State := some "active" }).key =
      some 0 :=
  (zero_count_active_reservation _ (emptyMap ec2Inst) rfl (by decide) rfl).2.2.1

/-! Scenario C of the spec, on concrete records. -/

/-- The raw running database record of scenario C. -/
def scenarioCRunning : rdsDBInstance :=
  { DBInstanceClass := some "db.m3.large", Engine := some "mysql",
    MultiAZ := some true }

/-- The raw reserved database record of scenario C, in state "active" with
instance count 1. -/
def scenarioCReserved : rdsReservedDBInstance :=
  { DBInstanceClass := some "db.m3.large", ProductDescription := some "mysql",
    MultiAZ := some true, DBInstanceCount := some 1, State := some "active" }

/-- The common group key of scenario C. -/
def scenarioCKey : rdsInst :=
  { Class := "db.m3.large", Product := "mysql", MultiAZ := true }

/-- C3: one running database record normalizing to the key
(db.m3.large, mysql, multi-AZ) with count 1 and one active reserved database
record with instance count 1 and the same key cancel: classification leaves
that key out of both buckets.  The running record's engine field and the
reserved record's product-description field both land in the `Product`
component of the group key, which is what lets the two records cancel. -/
theorem scenarioC_cancellation :
    (rdsiTordsii scenarioCRunning).key = scenarioCKey ∧
    (rdsiTordsii scenarioCRunning).Count = 1 ∧
    (rdsriTordsii scenarioCReserved).key = scenarioCKey ∧
    (rdsriTordsii scenarioCReserved).Count = 1 ∧
    (rdsriTordsii scenarioCReserved).State = state.Active ∧
    (rdsiTordsii scenarioCRunning).key.Product = toStr scenarioCRunning.Engine ∧
    (rdsriTordsii scenarioCReserved).key.Product =
      toStr scenarioCReserved.ProductDescription ∧
    onDemand (reconcile [rdsiTordsii scenarioCRunning]
        [rdsriTordsii scenarioCReserved]) scenarioCKey = none ∧
    unusedReservations (reconcile [rdsiTordsii scenarioCRunning]
        [rdsriTordsii scenarioCReserved]) scenarioCKey = none := by
  refine ⟨rfl, rfl, ?_, rfl, ?_, rfl, rfl, ?_, ?_⟩ <;> decide

/-! Error handling of the fetch phase and default resolution of absent
fields. -/

/-- C9: the pass fails as a whole when any of the four listing fetches fails:
the pass yields a report exactly when all four fetches succeed, and the
first fetch error in program order is returned unmodified, so no partial
report is emitted; by contrast a record all of whose fields are absent is
normalized without any error, the absent fields degrading to the defaults
(missing string to "", missing integer to 0, missing boolean to false). -/
theorem fetch_failure_is_fatal :
    (∀ (E : Type) (a : Except E DescribeInstancesResult)
        (b : Except E DescribeDBInstancesResult)
        (c : Except E DescribeReservedInstancesResult)
        (d : Except E DescribeReservedDBInstancesResult),
        ((∃ rep, mainRun E a b c d = .ok rep) ↔
          (∃ x, a = .ok x) ∧ (∃ x, b = .ok x) ∧ (∃ x, c = .ok x) ∧ (∃ x, d = .ok x)) ∧
        (∀ e, a = .error e → mainRun E a b c d = .error e) ∧
        (∀ e x, a = .ok x → b = .error e → mainRun E a b c d = .error e) ∧
        (∀ e x y, a = .ok x → b = .ok y → c = .error e →
          mainRun E a b c d = .error e) ∧
        (∀ e x y z, a = .ok x → b = .ok y → c = .ok z → d = .error e →
          mainRun E a b c d = .error e)) ∧
    toStr none = "" ∧ toInt none = 0 ∧ toBool none = false ∧
    ec2iToec2ii { InstanceType := none, VPCID := none, State := none } =
      { key := { Class := "", VPC := false }, Count := 1,
        State := state.UnknownState } ∧
    ec2riToec2ii
        { InstanceType := none, InstanceCount := none,
          ProductDescription := none, State := none } =
      { key := { Class := "", VPC := false }, Count := 0,
        State := state.UnknownState } ∧
    rdsiTordsii { DBInstanceClass := none, Engine := none, MultiAZ := none } =
      { key := { Class := "", Product := "", MultiAZ := false }, Count := 1,
        State := state.Active } ∧
    rdsriTordsii
        { DBInstanceClass := none, ProductDescription := none, MultiAZ := none,
          DBInstanceCount := none, State := none } =
      { key := { Class := "", Product := "", MultiAZ := false }, Count := 0,
        State := state.UnknownState } := by
  refine ⟨?_, rfl, rfl, rfl, by decide, by decide, by decide, by decide⟩
  intro E a b c d
  refine ⟨?_, ?_, ?_, ?_, ?_⟩
  · constructor
    · rintro ⟨rep, hrep⟩
      cases a with
      | error e =>
          have h : (Except.error e : Except E reportT) = .ok rep := hrep
          exact Except.noConfusion h
      | ok ra =>
        cases b with
        | error e =>
            have h : (Except.error e : Except E reportT) = .ok rep := hrep
            exact Except.noConfusion h
        | ok rb =>
          cases c with
          | error e =>
              have h : (Except.error e : Except E reportT) = .ok rep := hrep
              exact Except.noConfusion h
          | ok rc =>
            cases d with
            | error e =>
                have h : (Except.error e : Except E reportT) = .ok rep := hrep
                exact Except.noConfusion h
            | ok rd =>
                exact ⟨⟨ra, rfl⟩, ⟨rb, rfl⟩, ⟨rc, rfl⟩, ⟨rd, rfl⟩⟩
    · rintro ⟨⟨x, hx⟩, ⟨y, hy⟩, ⟨z, hz⟩, ⟨w, hw⟩⟩
      subst hx; subst hy; subst hz; subst hw
      exact ⟨_, rfl⟩
  · intro e ha
    subst ha
    rfl
  · intro e x ha hb
    subst ha; subst hb
    rfl
  · intro e x y ha hb hc
    subst ha; subst hb; subst hc
    rfl
  · intro e x y z ha hb hc hd
    subst ha; subst hb; subst hc; subst hd
    rfl

/-- Witness for `fetch_failure_is_fatal`: a failing running-compute fetch
makes the whole pass return that error. -/
theorem fetch_failure_is_fatal_witness :
    mainRun Unit (.error ()) (.ok { DBInstances := [] })
        (.ok { ReservedInstances := [] }) (.ok { ReservedDBInstances := [] }) =
      .error () :=
  (fetch_failure_is_fatal.1 Unit (.error ()) (.ok { DBInstances := [] })
      (.ok { ReservedInstances := [] }) (.ok { ReservedDBInstances := [] })).2.1 () rfl

end AwsRes
